import Mathlib

/-!
Shallow embedding of `src/proxy_server.py`, a CORS reverse proxy built on
`http.server.SimpleHTTPRequestHandler`. The handler class defines
`do_OPTIONS`, `do_GET` and `do_POST`; GET and POST requests whose path
starts with the literal `/api/` are forwarded to a fixed upstream base URL
by `handle_api_request`, and the upstream response (or a synthesized JSON
error) is relayed back with CORS headers. The embedding models the request
data, the construction of the outbound upstream request (lines 33-54), the
four outcome branches of the upstream call (lines 61-108), and the method
dispatch performed by the `http.server` machinery over the methods the
class actually defines.
-/

namespace ProxyServer

/-- HTTP methods of interest. The handler class defines `do_OPTIONS`,
`do_GET` and `do_POST`; PUT and DELETE have no `do_` method on the class or
on `SimpleHTTPRequestHandler`. -/
inductive Method where
  | GET
  | POST
  | PUT
  | DELETE
  | OPTIONS
deriving DecidableEq, Repr

/-- An inbound HTTP request: method, URL path, header list in arrival order,
and the bytes available on the request stream (`self.rfile`). -/
structure Request where
  method : Method
  path : String
  headers : List (String × String)
  body : List Nat
deriving DecidableEq, Repr

/-- ASCII lowercase of one character (header names are ASCII). -/
def charLower (c : Char) : Char :=
  if 65 ≤ c.toNat && c.toNat ≤ 90 then Char.ofNat (c.toNat + 32) else c

/-- Case-insensitive equality of header names. -/
def headerNameEq (a b : String) : Bool :=
  a.toList.map charLower == b.toList.map charLower

/-- Case-insensitive header lookup, first match wins: models
`self.headers.get(name)` (an `email.message.Message`). -/
def getHeader (name : String) (hs : List (String × String)) : Option String :=
  (hs.find? (fun p => headerNameEq p.1 name)).map (fun p => p.2)

/-- Whitespace stripped by Python `int` around a numeric literal. -/
def isPySpace (c : Char) : Bool :=
  c = ' ' || c = '\t' || c = '\n' || c = '\r' || c.toNat = 11 || c.toNat = 12

/-- Both-ends whitespace strip, as `str.strip()`. -/
def pyStrip (cs : List Char) : List Char :=
  ((cs.dropWhile isPySpace).reverse.dropWhile isPySpace).reverse

/-- Tail of a Python decimal digit run after its first digit: digits with
single group underscores allowed between digits (PEP 515). -/
def pyIntDigitsRest : List Char → Bool
  | [] => true
  | '_' :: c :: cs => c.isDigit && pyIntDigitsRest cs
  | c :: cs => c.isDigit && pyIntDigitsRest cs

/-- Valid Python decimal digit run: nonempty and starting with a digit. -/
def pyDigitsValid : List Char → Bool
  | [] => false
  | c :: cs => c.isDigit && pyIntDigitsRest cs

/-- Numeric value of a digit run, ignoring group underscores. -/
def pyDigitsValue (cs : List Char) : Nat :=
  (cs.filter (fun c => c ≠ '_')).foldl (fun a c => 10 * a + (c.toNat - 48)) 0

/-- Magnitude part of Python `int` applied to a string. -/
def pyIntMag (cs : List Char) : Option Nat :=
  if pyDigitsValid cs then some (pyDigitsValue cs) else none

/-- Model of Python `int(s)` on a `str` argument: surrounding whitespace is
stripped, then an optional sign and an ASCII digit run with group
underscores; any other shape raises `ValueError`, modelled as `none`.
Non-ASCII digit characters accepted by CPython are outside this model. -/
def pythonInt (s : String) : Option Int :=
  match pyStrip s.toList with
  | '+' :: cs => (pyIntMag cs).map (fun n => (n : Int))
  | '-' :: cs => (pyIntMag cs).map (fun n => -(n : Int))
  | cs => (pyIntMag cs).map (fun n => (n : Int))

/-- Lowercase hexadecimal digit. -/
def hexDigitChar (n : Nat) : Char :=
  if n < 10 then Char.ofNat (48 + n) else Char.ofNat (87 + n)

/-- Four lowercase hexadecimal digits, as in a JSON `\uXXXX` escape. -/
def hex4 (n : Nat) : String :=
  String.mk [hexDigitChar (n / 4096 % 16), hexDigitChar (n / 256 % 16),
    hexDigitChar (n / 16 % 16), hexDigitChar (n % 16)]

/-- Escape of one character as produced by `json.dumps` with its default
`ensure_ascii=True`: short escapes for quote, backslash and common control
characters, `\uXXXX` for other control and non-ASCII characters, surrogate
pairs above the basic plane. -/
def jsonEscapeChar (c : Char) : String :=
  if c = '"' then "\\\""
  else if c = '\\' then "\\\\"
  else if c = '\n' then "\\n"
  else if c = '\r' then "\\r"
  else if c = '\t' then "\\t"
  else if c.toNat = 8 then "\\b"
  else if c.toNat = 12 then "\\f"
  else if c.toNat < 32 then "\\u" ++ hex4 c.toNat
  else if c.toNat < 128 then String.mk [c]
  else if c.toNat < 65536 then "\\u" ++ hex4 c.toNat
  else
    "\\u" ++ hex4 (55296 + (c.toNat - 65536) / 1024) ++
      "\\u" ++ hex4 (56320 + (c.toNat - 65536) % 1024)

/-- JSON string-content escaping, character by character. -/
def jsonEscape (s : String) : String :=
  String.join (s.toList.map jsonEscapeChar)

/-- Model of `json.dumps` applied to a one-key dict holding `msg` under the
key `message`, as in lines 88 and 100. -/
def jsonDumpsMessage (msg : String) : String :=
  "\x7b\"message\": \"" ++ jsonEscape msg ++ "\"\x7d"

/-- Bytes of `s.encode()`; exact for the ASCII output of `json.dumps` with
its default `ensure_ascii`. -/
def strBytes (s : String) : List Nat :=
  s.toList.map Char.toNat

/-- The fixed upstream base URL of line 34. -/
def upstreamBase : String := "https://api.tempmail.co/v1"

/-- Lines 33-34: `api_path = self.path[4:]` and
`api_url = f"https://api.tempmail.co/v1{api_path}"`. -/
def apiUrlOf (path : String) : String :=
  upstreamBase ++ path.drop 4

/-- The outbound request handed to `urllib.request.urlopen`: URL, method,
optional data bytes, and the headers added by `add_header` in call order. -/
structure UpstreamRequest where
  url : String
  method : Method
  data : Option (List Nat)
  headers : List (String × String)
deriving DecidableEq, Repr

/-- Outcome of `urllib.request.urlopen(request, timeout=30)` together with
the body read from it: a response whose `read()` succeeds, an `HTTPError`
(whose body is `none` when `read` is unavailable, triggering the substitute
body of line 76), a `URLError` (transport failure, with `str(e)`), or any
other exception reaching the outer `except Exception` (with `str(e)`). -/
inductive UpstreamOutcome where
  | success (status : Nat) (body : List Nat)
  | httpError (code : Nat) (body : Option (List Nat))
  | urlError (desc : String)
  | otherError (desc : String)
deriving DecidableEq, Repr

/-- The response written back to the client: status line, headers sent via
`send_header` in call order, body bytes written to `self.wfile`. -/
structure HttpResponse where
  status : Nat
  headers : List (String × String)
  body : List Nat
deriving DecidableEq, Repr

/-- Line 37: `int(self.headers.get("Content-Length", 0))`. The default `0`
is already an int; a present header value goes through `int`, whose failure
is `none`. -/
def contentLengthOf (req : Request) : Option Int :=
  match getHeader "Content-Length" req.headers with
  | none => some 0
  | some v => pythonInt v

/-- Lines 38-40: `post_data` is the first `content_length` bytes read from
the stream when `content_length > 0`, and `None` otherwise. -/
def postDataOf (n : Int) (body : List Nat) : Option (List Nat) :=
  if 0 < n then some (body.take n.toNat) else none

/-- Lines 46-48: copy the `Authorization` header when its value is truthy,
that is, present and non-empty. -/
def authHeadersOf (req : Request) : List (String × String) :=
  match getHeader "Authorization" req.headers with
  | some a => if a = "" then [] else [("Authorization", a)]
  | none => []

/-- Lines 50-51: add `Content-Type` when `post_data` is truthy, that is,
present and non-empty. -/
def ctHeadersOf (pd : Option (List Nat)) : List (String × String) :=
  match pd with
  | some d => if d = [] then [] else [("Content-Type", "application/json")]
  | none => []

/-- Lines 33-54 assembled: the outbound upstream request handed to
`urlopen`. `none` models `int` raising `ValueError` on the `Content-Length`
value, absorbed by the outer `except Exception`; the guards on the copied
headers are Python truthiness, so an absent value and an empty value are
both skipped. Header entries appear in `add_header` call order. -/
def buildUpstreamRequest (req : Request) : Option UpstreamRequest :=
  match contentLengthOf req with
  | none => none
  | some n =>
    some
      { url := apiUrlOf req.path
        method := req.method
        data := postDataOf n req.body
        headers := authHeadersOf req ++ ctHeadersOf (postDataOf n req.body) ++
          [("Accept", "application/json"), ("User-Agent", "TempMail-Proxy/1.0")] }

/-- The two headers sent on every proxied response (lines 67-68 and the
error branches). -/
def corsJsonHeaders : List (String × String) :=
  [("Access-Control-Allow-Origin", "*"), ("Content-Type", "application/json")]

/-- The substitute body of line 76 for an unreadable `HTTPError` body. -/
def apiErrorBytes : List Nat :=
  strBytes "\x7b\"message\": \"API Error\"\x7d"

/-- Model of `repr` as echoed in the `ValueError` message of `int`; quote
selection and escaping inside `repr` are not needed for the values that
arise here. -/
def pyStrRepr (s : String) : String :=
  "\x27" ++ s ++ "\x27"

/-- Message of the `ValueError` raised by `int` on an unparseable string. -/
def intErrorDesc (v : String) : String :=
  "invalid literal for int() with base 10: " ++ pyStrRepr v

/-- Lines 98-108: the catch-all response, status 500 with a Proxy error
JSON body. -/
def proxyErrorResponse (desc : String) : HttpResponse :=
  { status := 500
    headers := corsJsonHeaders
    body := strBytes (jsonDumpsMessage ("Proxy error: " ++ desc)) }

/-- Lines 86-96: the transport-failure response, status 500 with a Network
error JSON body. -/
def networkErrorResponse (desc : String) : HttpResponse :=
  { status := 500
    headers := corsJsonHeaders
    body := strBytes (jsonDumpsMessage ("Network error: " ++ desc)) }

/-- Lines 30-108: `handle_api_request`, parameterised by the behaviour of
the upstream call. Returns the single response written to the client and
the upstream request issued, `none` when no upstream call was made. -/
def handle_api_request (req : Request)
    (upstream : UpstreamRequest → UpstreamOutcome) :
    HttpResponse × Option UpstreamRequest :=
  match buildUpstreamRequest req with
  | none =>
    (proxyErrorResponse
      (intErrorDesc ((getHeader "Content-Length" req.headers).getD "")), none)
  | some u =>
    match upstream u with
    | .success s b => ({ status := s, headers := corsJsonHeaders, body := b }, some u)
    | .httpError c b =>
      ({ status := c, headers := corsJsonHeaders, body := b.getD apiErrorBytes }, some u)
    | .urlError d => (networkErrorResponse d, some u)
    | .otherError d => (proxyErrorResponse d, some u)

/-- Lines 11-16: `do_OPTIONS` answers 200 with the three permissive CORS
headers and writes no body. -/
def preflightResponse : HttpResponse :=
  { status := 200
    headers := [("Access-Control-Allow-Origin", "*"),
      ("Access-Control-Allow-Methods", "GET, POST, PUT, DELETE, OPTIONS"),
      ("Access-Control-Allow-Headers", "Content-Type, Authorization, Accept")]
    body := [] }

/-- What the server does with one request: a response written by code of
this repository, delegation to the `SimpleHTTPRequestHandler` static-file
code, a `501 Unsupported method` answer produced by `handle_one_request`
when the class has no `do_` method for the verb, or a dropped connection
when an exception escapes the `do_` method. -/
inductive DispatchResult where
  | response (r : HttpResponse)
  | staticFile (path : String)
  | unsupported (code : Nat) (m : Method)
  | dropped (desc : String)
deriving DecidableEq, Repr

/-- Literal test of `self.path.startswith(lit)`. -/
def pathStarts (p lit : String) : Bool :=
  lit.toList.isPrefixOf p.toList

/-- Method dispatch of `CORSProxyHandler` under the `http.server`
machinery. `do_OPTIONS` answers every OPTIONS request. `do_GET` and
`do_POST` route on the `/api/` literal; a GET outside `/api/` goes to the
static-file code with the path unchanged; a POST outside `/api/` calls
`super().do_POST()`, which does not exist (`SimpleHTTPRequestHandler`
defines only `do_GET` and `do_HEAD`), so an `AttributeError` escapes and
the connection closes with no response. PUT and DELETE have no `do_`
method anywhere in the class hierarchy, so `handle_one_request` answers
`501 Unsupported method` without entering any handler of this repository. -/
def dispatch (req : Request) (upstream : UpstreamRequest → UpstreamOutcome) :
    DispatchResult :=
  match req.method with
  | .OPTIONS => .response preflightResponse
  | .GET =>
    if pathStarts req.path "/api/" then
      .response (handle_api_request req upstream).1
    else
      .staticFile req.path
  | .POST =>
    if pathStarts req.path "/api/" then
      .response (handle_api_request req upstream).1
    else
      .dropped "AttributeError: no do_POST on SimpleHTTPRequestHandler"
  | .PUT => .unsupported 501 .PUT
  | .DELETE => .unsupported 501 .DELETE

/-- Status and body the handler relays when the upstream call produced an
HTTP status: the response body verbatim on success, the error body verbatim
on `HTTPError` when readable, the substitute body when not; `none` when no
HTTP status was obtained. -/
def relayOf : UpstreamOutcome → Option (Nat × List Nat)
  | .success s b => some (s, b)
  | .httpError c (some b) => some (c, b)
  | .httpError c none => some (c, apiErrorBytes)
  | .urlError _ => none
  | .otherError _ => none

/-- An upstream that always answers 200 with an empty body. -/
def okUpA : UpstreamRequest → UpstreamOutcome := fun _ => .success 200 []

/-- A second upstream with behaviour equal to `okUpA`. -/
def okUpB : UpstreamRequest → UpstreamOutcome := fun _ => .success 200 []

/-- The upstream request issued by `handle_api_request` is exactly the one
`buildUpstreamRequest` constructs, on every outcome branch. -/
theorem handle_api_request_snd (req : Request)
    (upstream : UpstreamRequest → UpstreamOutcome) :
    (handle_api_request req upstream).2 = buildUpstreamRequest req := by
  unfold handle_api_request
  cases hb : buildUpstreamRequest req with
  | none => rfl
  | some u => cases hu : upstream u <;> simp [hu]

/-- Every entry of `authHeadersOf` has the key `Authorization`. -/
theorem mem_authHeadersOf_key (req : Request) (p : String × String)
    (hp : p ∈ authHeadersOf req) : p.1 = "Authorization" := by
  unfold authHeadersOf at hp
  cases h : getHeader "Authorization" req.headers with
  | none => rw [h] at hp; simp at hp
  | some a =>
    rw [h] at hp
    by_cases ha : a = ""
    · simp [ha] at hp
    · simp [ha] at hp
      rw [hp]

/-- Every entry of `ctHeadersOf` has the key `Content-Type`. -/
theorem mem_ctHeadersOf_key (pd : Option (List Nat)) (p : String × String)
    (hp : p ∈ ctHeadersOf pd) : p.1 = "Content-Type" := by
  unfold ctHeadersOf at hp
  cases pd with
  | none => simp at hp
  | some d =>
    by_cases hd : d = []
    · simp [hd] at hp
    · simp [hd] at hp
      rw [hp]

/-- An absent or empty inbound `Authorization` header contributes nothing. -/
theorem authHeadersOf_nil (req : Request)
    (h : getHeader "Authorization" req.headers = none ∨
      getHeader "Authorization" req.headers = some "") :
    authHeadersOf req = [] := by
  rcases h with h | h <;> simp [authHeadersOf, h]

/-- C1 evidence: a `PUT` request under `/api/` is answered `501 Unsupported
method` by the base `http.server` machinery, because the class defines no
`do_PUT` (nor `do_DELETE`), and `handle_api_request` never runs — although
`do_OPTIONS` advertises PUT and DELETE as allowed methods. Evaluation at
the failing input `PUT /api/addresses/1`. -/
theorem put_api_request_answered_501 :
    dispatch ⟨.PUT, "/api/addresses/1", [], []⟩ (fun _ => .urlError "refused")
      = .unsupported 501 .PUT := rfl

/-- C2 evidence: a `POST` to a path outside `/api/` reaches
`super().do_POST()`, which does not exist on `SimpleHTTPRequestHandler`, so
an `AttributeError` escapes the handler and the connection is closed with
no response at all. Evaluation at the failing input `POST /index.html`. -/
theorem post_nonapi_connection_dropped :
    dispatch ⟨.POST, "/index.html", [], []⟩ (fun _ => .urlError "refused")
      = .dropped "AttributeError: no do_POST on SimpleHTTPRequestHandler" := rfl

/-- C3: when the upstream call fails at the transport level (`URLError`),
the handler responds 500 with CORS and JSON headers and the body
`{"message": "Network error: <description>"}`. -/
theorem transport_failure_yields_network_error
    (req : Request) (upstream : UpstreamRequest → UpstreamOutcome)
    (u : UpstreamRequest) (d : String)
    (hb : buildUpstreamRequest req = some u)
    (hu : upstream u = .urlError d) :
    (handle_api_request req upstream).1 =
      { status := 500, headers := corsJsonHeaders,
        body := strBytes (jsonDumpsMessage ("Network error: " ++ d)) } := by
  simp [handle_api_request, hb, hu, networkErrorResponse]

/-- C3 witness: a concrete refused connection. -/
theorem transport_failure_yields_network_error_witness :
    (handle_api_request ⟨.GET, "/api/a", [], []⟩ (fun _ => .urlError "refused")).1 =
      { status := 500, headers := corsJsonHeaders,
        body := strBytes (jsonDumpsMessage ("Network error: " ++ "refused")) } :=
  transport_failure_yields_network_error _ _
    ⟨"https://api.tempmail.co/v1/a", .GET, none,
      [("Accept", "application/json"), ("User-Agent", "TempMail-Proxy/1.0")]⟩
    "refused" rfl rfl

/-- C4: whenever the upstream exchange yields an HTTP status — success or
error status alike — the handler relays that status verbatim, adds the CORS
header, sets the JSON content type, and writes the body unmodified, with
the fixed API Error body only when the error body is unreadable. -/
theorem http_outcome_relayed_verbatim
    (req : Request) (upstream : UpstreamRequest → UpstreamOutcome)
    (u : UpstreamRequest) (s : Nat) (b : List Nat)
    (hb : buildUpstreamRequest req = some u)
    (hr : relayOf (upstream u) = some (s, b)) :
    (handle_api_request req upstream).1 =
      { status := s, headers := corsJsonHeaders, body := b } := by
  cases hu : upstream u with
  | success s0 b0 => rw [hu] at hr; simp_all [handle_api_request, relayOf, hb]
  | httpError c0 b0 =>
    rw [hu] at hr
    cases b0 <;> simp_all [handle_api_request, relayOf, hb]
  | urlError d0 => rw [hu] at hr; simp [relayOf] at hr
  | otherError d0 => rw [hu] at hr; simp [relayOf] at hr

/-- C4 witness: a concrete 201 upstream response relayed unchanged. -/
theorem http_outcome_relayed_verbatim_witness :
    (handle_api_request ⟨.POST, "/api/addresses", [], []⟩
        (fun _ => .success 201 (strBytes "\x7b\"id\":1\x7d"))).1 =
      { status := 201, headers := corsJsonHeaders,
        body := strBytes "\x7b\"id\":1\x7d" } :=
  http_outcome_relayed_verbatim _ _
    ⟨"https://api.tempmail.co/v1/addresses", .POST, none,
      [("Accept", "application/json"), ("User-Agent", "TempMail-Proxy/1.0")]⟩
    201 (strBytes "\x7b\"id\":1\x7d") rfl rfl

/-- C5: whenever `handle_api_request` issues an upstream call for a path
starting with `/api/`, the URL is the fixed base followed by the path with
its leading four characters removed. -/
theorem upstream_url_strips_api
    (req : Request) (upstream : UpstreamRequest → UpstreamOutcome)
    (u : UpstreamRequest)
    (_hp : pathStarts req.path "/api/" = true)
    (hc : (handle_api_request req upstream).2 = some u) :
    u.url = "https://api.tempmail.co/v1" ++ req.path.drop 4 := by
  rw [handle_api_request_snd] at hc
  unfold buildUpstreamRequest at hc
  cases hcl : contentLengthOf req with
  | none => rw [hcl] at hc; simp at hc
  | some n =>
    rw [hcl] at hc
    simp only [Option.some.injEq] at hc
    subst hc
    simp [apiUrlOf, upstreamBase]

/-- C5 witness: `/api/addresses` maps to the upstream addresses URL. -/
theorem upstream_url_strips_api_witness :
    (⟨"https://api.tempmail.co/v1/addresses", .GET, none,
      [("Accept", "application/json"), ("User-Agent", "TempMail-Proxy/1.0")]⟩ :
        UpstreamRequest).url =
      "https://api.tempmail.co/v1" ++ ("/api/addresses").drop 4 :=
  upstream_url_strips_api ⟨.GET, "/api/addresses", [], []⟩
    (fun _ => .urlError "refused") _ rfl rfl

/-- C6: every OPTIONS request, for any path, is answered 200 with an empty
body and exactly the three permissive CORS headers, with no upstream call or
other effect. -/
theorem options_answered_with_preflight
    (req : Request) (upstream : UpstreamRequest → UpstreamOutcome)
    (h : req.method = .OPTIONS) :
    dispatch req upstream = .response preflightResponse ∧
    preflightResponse.status = 200 ∧
    preflightResponse.body = [] ∧
    preflightResponse.headers =
      [("Access-Control-Allow-Origin", "*"),
       ("Access-Control-Allow-Methods", "GET, POST, PUT, DELETE, OPTIONS"),
       ("Access-Control-Allow-Headers", "Content-Type, Authorization, Accept")] := by
  refine ⟨?_, rfl, rfl, rfl⟩
  simp [dispatch, h]

/-- C6 witness: a concrete OPTIONS request. -/
theorem options_answered_with_preflight_witness :
    dispatch ⟨.OPTIONS, "/any/path", [], []⟩ (fun _ => .urlError "refused") =
      .response preflightResponse ∧
    preflightResponse.status = 200 ∧
    preflightResponse.body = [] ∧
    preflightResponse.headers =
      [("Access-Control-Allow-Origin", "*"),
       ("Access-Control-Allow-Methods", "GET, POST, PUT, DELETE, OPTIONS"),
       ("Access-Control-Allow-Headers", "Content-Type, Authorization, Accept")] :=
  options_answered_with_preflight _ _ rfl

/-- C7: the outbound upstream request carries `Content-Type:
application/json` exactly when the declared `Content-Length` is positive,
provided the request stream holds at least the declared number of bytes. -/
theorem content_type_iff_positive_content_length
    (req : Request) (upstream : UpstreamRequest → UpstreamOutcome)
    (u : UpstreamRequest) (n : Int)
    (hcl : contentLengthOf req = some n)
    (hlen : n.toNat ≤ req.body.length)
    (hc : (handle_api_request req upstream).2 = some u) :
    (("Content-Type", "application/json") ∈ u.headers ↔ 0 < n) := by
  rw [handle_api_request_snd] at hc
  unfold buildUpstreamRequest at hc
  rw [hcl] at hc
  simp only [Option.some.injEq] at hc
  subst hc
  by_cases hn : 0 < n
  · have hd : req.body.take n.toNat ≠ [] := by
      cases hbody : req.body with
      | nil =>
        exfalso
        rw [hbody] at hlen
        simp at hlen
        omega
      | cons x xs =>
        cases hk : n.toNat with
        | zero => exfalso; omega
        | succ k => simp
    have hct : ctHeadersOf (postDataOf n req.body) =
        [("Content-Type", "application/json")] := by
      simp [postDataOf, hn, ctHeadersOf, hd]
    simp only [hn, iff_true, hct]
    simp
  · have hct : ctHeadersOf (postDataOf n req.body) = [] := by
      simp [postDataOf, hn, ctHeadersOf]
    simp only [hn, iff_false, hct]
    intro hmem
    simp only [List.append_nil, List.nil_append, List.mem_append,
      List.mem_cons, List.not_mem_nil, or_false] at hmem
    rcases hmem with hmem | hmem | hmem
    · have hkey : ("Content-Type", "application/json").1 = "Authorization" :=
        mem_authHeadersOf_key req _ hmem
      have hkey2 : ("Content-Type" : String) = "Authorization" := hkey
      exact absurd hkey2 (by decide)
    · have hkey : ("Content-Type" : String) = "Accept" := congrArg Prod.fst hmem
      exact absurd hkey (by decide)
    · have hkey : ("Content-Type" : String) = "User-Agent" := congrArg Prod.fst hmem
      exact absurd hkey (by decide)

/-- C7 witness: a declared length of 5 with five bytes available. -/
theorem content_type_iff_positive_content_length_witness :
    (("Content-Type", "application/json") ∈
      (⟨"https://api.tempmail.co/v1/x", .POST, some [1, 2, 3, 4, 5],
        [("Content-Type", "application/json"),
         ("Accept", "application/json"),
         ("User-Agent", "TempMail-Proxy/1.0")]⟩ : UpstreamRequest).headers ↔
      0 < (5 : Int)) :=
  content_type_iff_positive_content_length
    ⟨.POST, "/api/x", [("Content-Length", "5")], [1, 2, 3, 4, 5]⟩
    (fun _ => .urlError "refused") _ 5 rfl (by decide) rfl

/-- C8 counterexample: a request that does carry an `Authorization` header,
with the empty value, is forwarded with no `Authorization` header at all,
because the guard `if auth_header:` is Python truthiness. -/
theorem empty_authorization_not_forwarded :
    getHeader "Authorization" [("Authorization", "")] = some "" ∧
    (handle_api_request ⟨.GET, "/api/a", [("Authorization", "")], []⟩
        (fun _ => .urlError "refused")).2 =
      some ⟨"https://api.tempmail.co/v1/a", .GET, none,
        [("Accept", "application/json"), ("User-Agent", "TempMail-Proxy/1.0")]⟩ ∧
    ("Authorization", "") ∉
      ([("Accept", "application/json"), ("User-Agent", "TempMail-Proxy/1.0")] :
        List (String × String)) :=
  ⟨rfl, rfl, by decide⟩

/-- C8 amended: a non-empty `Authorization` value is copied verbatim onto
the outbound upstream request; when the inbound header is absent or its
value is empty, no `Authorization` header is sent upstream. -/
theorem authorization_forwarded_iff_nonempty
    (req : Request) (upstream : UpstreamRequest → UpstreamOutcome)
    (u : UpstreamRequest)
    (hc : (handle_api_request req upstream).2 = some u) :
    (∀ a, getHeader "Authorization" req.headers = some a → a ≠ "" →
        ("Authorization", a) ∈ u.headers) ∧
    ((getHeader "Authorization" req.headers = none ∨
        getHeader "Authorization" req.headers = some "") →
      ∀ v, ("Authorization", v) ∉ u.headers) := by
  rw [handle_api_request_snd] at hc
  unfold buildUpstreamRequest at hc
  cases hcl : contentLengthOf req with
  | none => rw [hcl] at hc; simp at hc
  | some n =>
    rw [hcl] at hc
    simp only [Option.some.injEq] at hc
    subst hc
    constructor
    · intro a ha hne
      simp [authHeadersOf, ha, hne]
    · intro h0 v hmem
      rw [authHeadersOf_nil req h0] at hmem
      simp only [List.append_nil, List.nil_append, List.mem_append,
        List.mem_cons, List.not_mem_nil, or_false] at hmem
      rcases hmem with hmem | hmem | hmem
      · have hkey : ("Authorization", v).1 = "Content-Type" :=
          mem_ctHeadersOf_key _ _ hmem
        have hkey2 : ("Authorization" : String) = "Content-Type" := hkey
        exact absurd hkey2 (by decide)
      · have hkey : ("Authorization" : String) = "Accept" := congrArg Prod.fst hmem
        exact absurd hkey (by decide)
      · have hkey : ("Authorization" : String) = "User-Agent" := congrArg Prod.fst hmem
        exact absurd hkey (by decide)

/-- C8 witness: a concrete bearer token copied verbatim. -/
theorem authorization_forwarded_iff_nonempty_witness :
    ("Authorization", "Bearer xyz") ∈
      (⟨"https://api.tempmail.co/v1/a", .GET, none,
        [("Authorization", "Bearer xyz"),
         ("Accept", "application/json"),
         ("User-Agent", "TempMail-Proxy/1.0")]⟩ : UpstreamRequest).headers :=
  (authorization_forwarded_iff_nonempty
    ⟨.GET, "/api/a", [("Authorization", "Bearer xyz")], []⟩
    (fun _ => .urlError "refused") _ rfl).1 "Bearer xyz" rfl (by decide)

/-- C9: the handler is deterministic in the upstream — the same GET `/api/`
request dispatched against two upstreams with equal behaviour produces
identical responses. -/
theorem same_upstream_same_response
    (req : Request) (u1 u2 : UpstreamRequest → UpstreamOutcome)
    (_hm : req.method = .GET)
    (_hp : pathStarts req.path "/api/" = true)
    (h : ∀ r, u1 r = u2 r) :
    dispatch req u1 = dispatch req u2 := by
  have hu : u1 = u2 := funext h
  rw [hu]

/-- C9 witness: two runs of the same GET request against two upstream
oracles with equal behaviour. -/
theorem same_upstream_same_response_witness :
    dispatch ⟨.GET, "/api/messages", [], []⟩ okUpA =
      dispatch ⟨.GET, "/api/messages", [], []⟩ okUpB :=
  same_upstream_same_response _ okUpA okUpB rfl rfl (fun _ => rfl)

/-- C10: a present but unparseable `Content-Length` header makes `int`
raise `ValueError`; the outer catch-all answers 500 with a Proxy error body
and no upstream call is made. -/
theorem unparseable_content_length_proxy_error
    (req : Request) (upstream : UpstreamRequest → UpstreamOutcome) (v : String)
    (hv : getHeader "Content-Length" req.headers = some v)
    (hbad : pythonInt v = none) :
    handle_api_request req upstream =
      ({ status := 500, headers := corsJsonHeaders,
         body := strBytes (jsonDumpsMessage ("Proxy error: " ++ intErrorDesc v)) },
        none) := by
  have hcl : contentLengthOf req = none := by simp [contentLengthOf, hv, hbad]
  have hb : buildUpstreamRequest req = none := by simp [buildUpstreamRequest, hcl]
  simp [handle_api_request, hb, hv, proxyErrorResponse]

/-- C10 witness: the concrete unparseable value abc. -/
theorem unparseable_content_length_proxy_error_witness :
    handle_api_request ⟨.POST, "/api/a", [("Content-Length", "abc")], []⟩
        (fun _ => .urlError "refused") =
      ({ status := 500, headers := corsJsonHeaders,
         body := strBytes (jsonDumpsMessage ("Proxy error: " ++ intErrorDesc "abc")) },
        none) :=
  unparseable_content_length_proxy_error _ _ "abc" rfl rfl

end ProxyServer
